import Mathlib

/-!
The package database-sql: the `MyCustomType` scan/value adapter

A shallow embedding of `MyCustomType`, its `Scan` method (the `sql.Scanner`
capability) and its `Value` method (the `driver.Valuer` capability) from
`database-sql/main.go`, together with the properties the specification
states about them.

Modelling conventions:

* Go's `int64` is an integer in `[-2^63, 2^63)`.  Go's `int` is 32 bits wide
  on 32-bit targets and 64 bits wide on 64-bit targets, and the sources pin no
  target: the width is a parameter `sz : IntSize` of the model, and `int` is an
  integer in `[-2^(sz.bits-1), 2^(sz.bits-1))`.  Conversions between the two
  types wrap around explicitly.
* `interface{}` / `driver.Value` is the closed sum of the representations
  listed in the comment inside `Scan`, plus the untyped `nil`.
* A pointer-receiver method is a function from the receiver's prior state to
  its posterior state paired with the returned `error` (`none` is Go's `nil`).
-/

namespace DatabaseSql

/-! ## Machine integers -/

/-- Two's-complement wrap-around of an integer to `w` bits: the result of a Go
conversion to a signed integer type of width `w`. -/
def wrapSigned (w : Nat) (x : Int) : Int :=
  (x + 2 ^ (w - 1)) % 2 ^ w - 2 ^ (w - 1)

/-- The width of Go's `int` on the build target: 32 bits (386, arm, ...) or
64 bits (amd64, arm64, ...). -/
inductive IntSize where
  | bits32
  | bits64
deriving DecidableEq

/-- The number of bits of `int`. -/
def IntSize.bits : IntSize → Nat
  | IntSize.bits32 => 32
  | IntSize.bits64 => 64

/-- Go's `int64`. -/
structure GoInt64 where
  val : Int
  lo : -(2 ^ 63) ≤ val
  hi : val < 2 ^ 63
deriving DecidableEq

/-- Go's `int` on a target where it is `sz.bits` wide. -/
structure GoInt (sz : IntSize) where
  val : Int
  lo : -(2 ^ (sz.bits - 1)) ≤ val
  hi : val < 2 ^ (sz.bits - 1)
deriving DecidableEq

/-- The conversion `int(src)` of an `int64` operand: the operand wrapped to the
width of `int` (a truncation when `int` is 32 bits wide). -/
def GoInt64.toInt {sz : IntSize} (v : GoInt64) : GoInt sz :=
  ⟨wrapSigned sz.bits v.val,
    by cases sz <;> simp only [wrapSigned, IntSize.bits] <;> omega,
    by cases sz <;> simp only [wrapSigned, IntSize.bits] <;> omega⟩

/-- The conversion `int64(n.Number)` of an `int` operand. -/
def GoInt.toInt64 {sz : IntSize} (v : GoInt sz) : GoInt64 :=
  ⟨wrapSigned 64 v.val,
    by simp only [wrapSigned]; omega,
    by simp only [wrapSigned]; omega⟩

/-- The `int` constant `0`. -/
def GoInt.zero {sz : IntSize} : GoInt sz :=
  ⟨0, by cases sz <;> decide, by cases sz <;> decide⟩

/-- The `int` constant `1`. -/
def GoInt.one {sz : IntSize} : GoInt sz :=
  ⟨1, by cases sz <;> decide, by cases sz <;> decide⟩

/-- An `int64` operand is representable in `int`: it lies in the range of the
`sz.bits`-bit signed integers. -/
def GoInt64.fitsInt (sz : IntSize) (v : GoInt64) : Prop :=
  -(2 ^ (sz.bits - 1)) ≤ v.val ∧ v.val < 2 ^ (sz.bits - 1)

instance GoInt64.decFitsInt (sz : IntSize) (v : GoInt64) : Decidable (v.fitsInt sz) := by
  unfold GoInt64.fitsInt
  exact inferInstance

/-! ## Driver values and errors -/

/-- Go's `time.Time`, as its wall-clock and monotonic words.  `Scan` never
inspects a timestamp, it only rejects it. -/
structure Time where
  wall : Nat
  ext : Int
deriving DecidableEq

/-- The dynamic value handed to `Scan` (`src interface{}`) and returned by
`Value` (`driver.Value`): one of the representations enumerated in the
comment at the top of `Scan`, or the untyped `nil` standing for SQL NULL.
A `float64` is carried as its IEEE-754 bit pattern, a `[]byte` as its list of
bytes. -/
inductive DriverValue where
  | int64 (v : GoInt64)
  | float64 (bits : Fin (2 ^ 64))
  | bool (b : Bool)
  | bytes (b : List (Fin 256))
  | string (s : String)
  | time (t : Time)
  | nil
deriving DecidableEq

/-- A Go `error` built by `fmt.Errorf`: the format string and its operand.
Rendering of the `%#v` verb is not modelled; the operand is kept as is. -/
structure GoError where
  format : String
  arg : DriverValue
deriving DecidableEq

/-- The struct `MyCustomType`, on a target whose `int` is `sz.bits` wide. -/
structure MyCustomType (sz : IntSize) where
  Number : GoInt sz
  Valid : Bool
deriving DecidableEq

/-! ## The two methods -/

/-- The method `(n *MyCustomType) Scan(src interface{}) error`: the receiver
after the call, and the returned error. -/
def MyCustomType.Scan {sz : IntSize} (n : MyCustomType sz) (src : DriverValue) :
    MyCustomType sz × Option GoError :=
  if src = DriverValue.nil then
    -- n.Number, n.Valid = 0, false; return nil
    ({ n with Number := GoInt.zero, Valid := false }, none)
  else
    -- n.Valid = true
    let n₁ : MyCustomType sz := { n with Valid := true }
    match src with
    | DriverValue.int64 v =>
      -- n.Number = int(src)
      ({ n₁ with Number := v.toInt }, none)
    | DriverValue.bool _ =>
      -- n.Number = 1
      ({ n₁ with Number := GoInt.one }, none)
    | other =>
      -- return fmt.Errorf("can't scan %#v into MyCustomType", src)
      (n₁, some ⟨"can't scan %#v into MyCustomType", other⟩)

/-- The method `(n MyCustomType) Value() (driver.Value, error)`. -/
def MyCustomType.Value {sz : IntSize} (n : MyCustomType sz) :
    DriverValue × Option GoError :=
  if !n.Valid then
    (DriverValue.nil, none)
  else
    (DriverValue.int64 n.Number.toInt64, none)

end DatabaseSql

/-!
The package 3/repository/students/pgx_implementation: the students repository

A shallow embedding of `studentsRepository.GetStudent` and
`studentsRepository.GetStudents` from
`3/repository/students/pgx_implementation/repository.go`.

The database is the environment: what `pool.QueryRow(...).Scan(...)`,
`pool.Query(...)`, `rows.Next()`, `rows.Scan(...)` and `rows.Err()` deliver is
an argument of the embedded function.  Calls to `log.Printf` and the deferred
`rows.Close()` do not influence the returned values and are left out.
-/

namespace PgxImplementation

/-- Go `error` values that reach the repository.  The package-level sentinels
are distinct variables, each created by its own `errors.New` call:
`sql.ErrNoRows` (`database/sql`: "sql: no rows in result set"),
`pgx.ErrNoRows` (`github.com/jackc/pgx/v4`: "no rows in result set"),
and `models.ErrNotFound`, `models.ErrInternal` from `3/models/errors.go`.
`other` is any further error without an `Unwrap` method, `wrap` an error whose
`Unwrap` method returns `inner`. -/
inductive Err where
  | sqlErrNoRows
  | pgxErrNoRows
  | ErrNotFound
  | ErrInternal
  | other (msg : String)
  | wrap (msg : String) (inner : Err)
deriving DecidableEq

/-- The call `errors.Is(err, target)` for non-nil `err`: `err` or an error in
its `Unwrap` chain is equal to `target`. -/
def errorsIs : Err → Err → Bool
  | Err.wrap msg inner, target =>
    if Err.wrap msg inner = target then true else errorsIs inner target
  | err, target => if err = target then true else false

/-- A Go type together with its zero value.  The declaration of
`models.Student` lies outside the sources at hand, so the repository functions
take the type as a parameter `S`; `GoZero.zero` is `models.Student{}`, also the
initial content of `var student models.Student`. -/
class GoZero (S : Type) where
  zero : S

/-- What a call `Scan(&student.ID, &student.FirstName, &student.LastName,
&student.Age)` leaves behind: the content of the local variable `student`
after the call (possibly only partly written when the call fails) and the
returned error (`none` is `nil`). -/
structure ScanResult (S : Type) where
  student : S
  err : Option Err

/-- What `pool.Query` and the iteration over its rows deliver: either the
query fails with `err`, or it yields rows; `scans` lists, for the rows that
`rows.Next()` announces, what `rows.Scan` does on each, and `rowsErr` is what
`rows.Err()` returns once `rows.Next()` has returned false. -/
inductive QueryResult (S : Type) where
  | failed (err : Err)
  | rows (scans : List (ScanResult S)) (rowsErr : Option Err)

/-- The method `GetStudent(ctx, id) (models.Student, error)`; `scan` is what
`row.Scan` does for the row of `pool.QueryRow(ctx, query, id)`. -/
def GetStudent {S : Type} [GoZero S] (_id : DatabaseSql.GoInt64)
    (scan : ScanResult S) : S × Option Err :=
  match scan.err with
  | some err =>
    if errorsIs err Err.sqlErrNoRows then
      -- return models.Student{}, models.ErrNotFound
      (GoZero.zero, some Err.ErrNotFound)
    else
      -- return models.Student{}, models.ErrInternal
      (GoZero.zero, some Err.ErrInternal)
  | none =>
    -- return student, nil
    (scan.student, none)

/-- The loop `for rows.Next() { ... }` of `GetStudents`, started with the
slice `students`: `none` when a `rows.Scan` fails (the function returns from
inside the loop), otherwise the slice after the last row. -/
def GetStudents.loop {S : Type} (students : List S) :
    List (ScanResult S) → Option (List S)
  | [] => some students
  | scan :: rest =>
    match scan.err with
    | some _ => none
    | none => GetStudents.loop (students ++ [scan.student]) rest

/-- The method `GetStudents(ctx, ids...) ([]models.Student, error)`.  A slice
is `none` for Go's `nil` and `some l` for a non-nil slice with elements `l`;
`make([]models.Student, 0, len(ids))` is the non-nil empty slice (capacity is
not modelled). -/
def GetStudents {S : Type} (_ids : List DatabaseSql.GoInt64)
    (q : QueryResult S) : Option (List S) × Option Err :=
  match q with
  | QueryResult.failed _ =>
    -- return nil, models.ErrInternal
    (none, some Err.ErrInternal)
  | QueryResult.rows scans rowsErr =>
    match GetStudents.loop [] scans with
    | none =>
      -- return nil, models.ErrInternal
      (none, some Err.ErrInternal)
    | some students =>
      match rowsErr with
      | some _ =>
        -- return nil, models.ErrInternal
        (none, some Err.ErrInternal)
      | none =>
        -- return students, nil
        (some students, none)

end PgxImplementation

namespace DatabaseSql

/-! ## Conversion lemmas -/

theorem goInt64_ext {a b : GoInt64} (h : a.val = b.val) : a = b := by
  cases a; cases b; cases h; rfl

theorem goInt_ext {sz : IntSize} {a b : GoInt sz} (h : a.val = b.val) : a = b := by
  cases a; cases b; cases h; rfl

/-- The numeric value of `int(src)`. -/
theorem GoInt64.toInt_val_wrap {sz : IntSize} (x : GoInt64) :
    (x.toInt : GoInt sz).val = wrapSigned sz.bits x.val := rfl

/-- Converting an `int64` that is representable in `int` keeps its numeric
value. -/
theorem GoInt64.toInt_val {sz : IntSize} (x : GoInt64) (h : x.fitsInt sz) :
    (x.toInt : GoInt sz).val = x.val := by
  obtain ⟨hlo, hhi⟩ := h
  cases sz <;> simp only [IntSize.bits] at hlo hhi <;>
    simp only [GoInt64.toInt, wrapSigned, IntSize.bits] <;> omega

/-- Where `int` is 64 bits wide every `int64` is representable in it. -/
theorem GoInt64.fitsInt_bits64 (x : GoInt64) : x.fitsInt IntSize.bits64 :=
  ⟨x.lo, x.hi⟩

/-- Converting an `int` to `int64` keeps its numeric value, at either width. -/
theorem GoInt.toInt64_val {sz : IntSize} (v : GoInt sz) : v.toInt64.val = v.val := by
  have hlo := v.lo
  have hhi := v.hi
  cases sz <;> simp only [IntSize.bits] at hlo hhi <;>
    simp only [GoInt.toInt64, wrapSigned] <;> omega

/-- The `int64` made from an `int` is representable in `int`. -/
theorem GoInt.toInt64_fitsInt {sz : IntSize} (v : GoInt sz) : v.toInt64.fitsInt sz := by
  unfold GoInt64.fitsInt
  rw [GoInt.toInt64_val]
  exact ⟨v.lo, v.hi⟩

theorem GoInt.toInt64_toInt {sz : IntSize} (v : GoInt sz) : v.toInt64.toInt = v :=
  goInt_ext (by rw [GoInt64.toInt_val _ v.toInt64_fitsInt, GoInt.toInt64_val])

theorem GoInt64.toInt_toInt64 {sz : IntSize} (x : GoInt64) (h : x.fitsInt sz) :
    (x.toInt : GoInt sz).toInt64 = x :=
  goInt64_ext (by rw [GoInt.toInt64_val, GoInt64.toInt_val x h])

/-! ## Evaluation of `Scan` on each representation -/

theorem Scan_nil_eq {sz : IntSize} (n : MyCustomType sz) :
    n.Scan DriverValue.nil = (⟨GoInt.zero, false⟩, none) := by
  simp [MyCustomType.Scan]

theorem Scan_int64_eq {sz : IntSize} (n : MyCustomType sz) (x : GoInt64) :
    n.Scan (DriverValue.int64 x) = (⟨x.toInt, true⟩, none) := by
  simp [MyCustomType.Scan]

theorem Scan_bool_eq {sz : IntSize} (n : MyCustomType sz) (b : Bool) :
    n.Scan (DriverValue.bool b) = (⟨GoInt.one, true⟩, none) := by
  simp [MyCustomType.Scan]

theorem Scan_float64_eq {sz : IntSize} (n : MyCustomType sz) (f : Fin (2 ^ 64)) :
    n.Scan (DriverValue.float64 f) =
      (⟨n.Number, true⟩, some ⟨"can't scan %#v into MyCustomType", DriverValue.float64 f⟩) := by
  simp [MyCustomType.Scan]

theorem Scan_bytes_eq {sz : IntSize} (n : MyCustomType sz) (b : List (Fin 256)) :
    n.Scan (DriverValue.bytes b) =
      (⟨n.Number, true⟩, some ⟨"can't scan %#v into MyCustomType", DriverValue.bytes b⟩) := by
  simp [MyCustomType.Scan]

theorem Scan_string_eq {sz : IntSize} (n : MyCustomType sz) (s : String) :
    n.Scan (DriverValue.string s) =
      (⟨n.Number, true⟩, some ⟨"can't scan %#v into MyCustomType", DriverValue.string s⟩) := by
  simp [MyCustomType.Scan]

theorem Scan_time_eq {sz : IntSize} (n : MyCustomType sz) (t : Time) :
    n.Scan (DriverValue.time t) =
      (⟨n.Number, true⟩, some ⟨"can't scan %#v into MyCustomType", DriverValue.time t⟩) := by
  simp [MyCustomType.Scan]

theorem Value_valid_eq {sz : IntSize} (v : GoInt sz) :
    MyCustomType.Value ⟨v, true⟩ = (DriverValue.int64 v.toInt64, none) := by
  simp [MyCustomType.Value]

theorem Value_invalid_eq {sz : IntSize} (v : GoInt sz) :
    MyCustomType.Value ⟨v, false⟩ = (DriverValue.nil, none) := by
  simp [MyCustomType.Value]

/-! ## Properties of the adapter pair -/

/-- C1, round trip: at either width of `int`, for every `int` value `v` and
every prior state `n` of the receiver, `Value` of
`MyCustomType{Number: v, Valid: true}` returns a driver value with a nil error,
and `Scan` of that driver value returns a nil error and leaves the receiver
equal to `MyCustomType{Number: v, Valid: true}`. -/
theorem Scan_Value_roundtrip {sz : IntSize} (v : GoInt sz) (n : MyCustomType sz) :
    (MyCustomType.Value (⟨v, true⟩ : MyCustomType sz)).2 = none ∧
    n.Scan (MyCustomType.Value (⟨v, true⟩ : MyCustomType sz)).1 = (⟨v, true⟩, none) := by
  rw [Value_valid_eq, Scan_int64_eq, GoInt.toInt64_toInt]
  exact ⟨rfl, rfl⟩

/-- C2: for every prior state of the receiver, `Scan(nil)` returns a nil error
and leaves the receiver with `Valid = false` and `Number = 0`. -/
theorem Scan_nil {sz : IntSize} (n : MyCustomType sz) :
    (n.Scan DriverValue.nil).2 = none ∧
    (n.Scan DriverValue.nil).1.Valid = false ∧
    (n.Scan DriverValue.nil).1.Number.val = 0 := by
  rw [Scan_nil_eq]
  exact ⟨rfl, rfl, rfl⟩

/-- C3: for every `MyCustomType` with `Valid = false`, whatever its `Number`
field holds, `Value` returns the nil driver value together with a nil error. -/
theorem Value_invalid {sz : IntSize} (num : GoInt sz) :
    MyCustomType.Value (⟨num, false⟩ : MyCustomType sz) = (DriverValue.nil, none) :=
  Value_invalid_eq num

/-- C4: for every `MyCustomType` with `Valid = true`, `Value` returns an
`int64` driver value holding the same integer as `Number`, with a nil error;
that driver value is one `Scan` accepts; and `Value` returns a nil error on
every receiver. -/
theorem Value_valid {sz : IntSize} (num : GoInt sz) :
    (∃ x : GoInt64, x.val = num.val ∧
      MyCustomType.Value (⟨num, true⟩ : MyCustomType sz) = (DriverValue.int64 x, none) ∧
      ∀ m : MyCustomType sz, (m.Scan (DriverValue.int64 x)).2 = none) ∧
    ∀ n : MyCustomType sz, n.Value.2 = none := by
  refine ⟨⟨num.toInt64, GoInt.toInt64_val num, Value_valid_eq num, ?_⟩, ?_⟩
  · intro m
    rw [Scan_int64_eq]
  · intro n
    cases n with
    | mk v valid => cases valid <;> simp [MyCustomType.Value]

/-- C5, as stated, fails where `int` is 32 bits wide: scanning the 64-bit
integer `2147483648` into the zero-value receiver returns a nil error and
stores `-2147483648`. -/
theorem Scan_int64_truncates :
    (MyCustomType.Scan (⟨GoInt.zero, false⟩ : MyCustomType IntSize.bits32)
      (DriverValue.int64 ⟨2147483648, by decide, by decide⟩)).2 = none ∧
    (MyCustomType.Scan (⟨GoInt.zero, false⟩ : MyCustomType IntSize.bits32)
      (DriverValue.int64 ⟨2147483648, by decide, by decide⟩)).1.Number.val =
        -2147483648 := by
  rw [Scan_int64_eq]
  exact ⟨rfl, by decide⟩

/-- C5, amended: for every 64-bit integer `x` and every prior state of the
receiver, `Scan(x)` returns a nil error and leaves the receiver with
`Valid = true` and `Number = int(x)`, that is `x` wrapped to the width of
`int`; `Number` is numerically equal to `x` whenever `x` is representable in
`int`, which holds for `-1` at either width and for every `x` where `int` is
64 bits wide. -/
theorem Scan_int64_stored {sz : IntSize} (n : MyCustomType sz) (x : GoInt64) :
    (n.Scan (DriverValue.int64 x)).2 = none ∧
    (n.Scan (DriverValue.int64 x)).1.Valid = true ∧
    (n.Scan (DriverValue.int64 x)).1.Number.val = wrapSigned sz.bits x.val ∧
    (x.fitsInt sz → (n.Scan (DriverValue.int64 x)).1.Number.val = x.val) ∧
    (n.Scan (DriverValue.int64 ⟨-1, by decide, by decide⟩)).1.Number.val = -1 ∧
    (∀ m : MyCustomType IntSize.bits64,
      (m.Scan (DriverValue.int64 x)).1.Number.val = x.val) := by
  refine ⟨?_, ?_, ?_, ?_, ?_, ?_⟩
  · rw [Scan_int64_eq]
  · rw [Scan_int64_eq]
  · rw [Scan_int64_eq]; rfl
  · intro h
    rw [Scan_int64_eq]
    exact GoInt64.toInt_val x h
  · rw [Scan_int64_eq]
    exact GoInt64.toInt_val _ (by cases sz <;> decide)
  · intro m
    rw [Scan_int64_eq]
    exact GoInt64.toInt_val x x.fitsInt_bits64

theorem Scan_int64_stored_witness :
    (MyCustomType.Scan (⟨GoInt.zero, false⟩ : MyCustomType IntSize.bits32)
      (DriverValue.int64 ⟨2147483647, by decide, by decide⟩)).1.Number.val = 2147483647 :=
  (Scan_int64_stored (⟨GoInt.zero, false⟩ : MyCustomType IntSize.bits32)
    ⟨2147483647, by decide, by decide⟩).2.2.2.1 (by decide)

/-- C6: `Scan` returns a non-nil error if and only if its input is non-nil and
is neither an `int64` nor a `bool`; every `float64`, `[]byte`, `string` and
`time.Time` input is rejected with an error, and every nil, `int64` and `bool`
input is accepted. -/
theorem Scan_error_iff {sz : IntSize} (n : MyCustomType sz) (src : DriverValue) :
    ((n.Scan src).2 ≠ none ↔
      src ≠ DriverValue.nil ∧ (¬ ∃ x, src = DriverValue.int64 x) ∧
        (¬ ∃ b, src = DriverValue.bool b)) ∧
    (∀ f, (n.Scan (DriverValue.float64 f)).2 ≠ none) ∧
    (∀ b, (n.Scan (DriverValue.bytes b)).2 ≠ none) ∧
    (∀ s, (n.Scan (DriverValue.string s)).2 ≠ none) ∧
    (∀ t, (n.Scan (DriverValue.time t)).2 ≠ none) ∧
    (n.Scan DriverValue.nil).2 = none ∧
    (∀ x, (n.Scan (DriverValue.int64 x)).2 = none) ∧
    (∀ b, (n.Scan (DriverValue.bool b)).2 = none) := by
  refine ⟨?_, ?_, ?_, ?_, ?_, ?_, ?_, ?_⟩
  · cases src <;> simp [MyCustomType.Scan]
  · intro f; simp [Scan_float64_eq]
  · intro b; simp [Scan_bytes_eq]
  · intro s; simp [Scan_string_eq]
  · intro t; simp [Scan_time_eq]
  · simp [Scan_nil_eq]
  · intro x; simp [Scan_int64_eq]
  · intro b; simp [Scan_bool_eq]

/-- C7, as stated, fails: scanning the one-byte sequence `[]byte("1")` into the
zero-value receiver `MyCustomType{Number: 0, Valid: false}` returns a non-nil
error and leaves the receiver's `Valid` field `true`, not what it was before
the call. -/
theorem Scan_failure_alters_receiver :
    (MyCustomType.Scan (⟨GoInt.zero, false⟩ : MyCustomType IntSize.bits64)
      (DriverValue.bytes [49])).2 ≠ none ∧
    (MyCustomType.Scan (⟨GoInt.zero, false⟩ : MyCustomType IntSize.bits64)
      (DriverValue.bytes [49])).1 ≠ ⟨GoInt.zero, false⟩ := by
  rw [Scan_bytes_eq]
  simp

/-- C7, amended: whenever `Scan` returns a non-nil error, the receiver's
`Number` field is exactly what it was before the call and its `Valid` field
is `true`. -/
theorem Scan_failure_receiver {sz : IntSize} (n : MyCustomType sz) (src : DriverValue)
    (h : (n.Scan src).2 ≠ none) :
    (n.Scan src).1 = ⟨n.Number, true⟩ := by
  cases src <;> simp_all [MyCustomType.Scan]

theorem Scan_failure_receiver_witness :
    (MyCustomType.Scan (⟨GoInt.zero, false⟩ : MyCustomType IntSize.bits64)
      (DriverValue.bytes [49])).2 ≠ none ∧
    (MyCustomType.Scan (⟨GoInt.zero, false⟩ : MyCustomType IntSize.bits64)
      (DriverValue.bytes [49])).1 = ⟨GoInt.zero, true⟩ :=
  ⟨by simp [Scan_bytes_eq],
    Scan_failure_receiver ⟨GoInt.zero, false⟩ (DriverValue.bytes [49])
      (by simp [Scan_bytes_eq])⟩

/-- C8, as stated, fails twice.  `Scan` accepts the boolean `true`, and `Value`
on the scanned receiver returns the 64-bit integer `1`, not the boolean.  And
where `int` is 32 bits wide `Scan` accepts the 64-bit integer `2147483648`,
and `Value` on the scanned receiver returns another integer. -/
theorem Value_Scan_not_inverse :
    (MyCustomType.Scan (⟨GoInt.zero, false⟩ : MyCustomType IntSize.bits64)
      (DriverValue.bool true)).2 = none ∧
    (MyCustomType.Scan (⟨GoInt.zero, false⟩ : MyCustomType IntSize.bits64)
      (DriverValue.bool true)).1.Value ≠ (DriverValue.bool true, none) ∧
    (MyCustomType.Scan (⟨GoInt.zero, false⟩ : MyCustomType IntSize.bits32)
      (DriverValue.int64 ⟨2147483648, by decide, by decide⟩)).2 = none ∧
    (MyCustomType.Scan (⟨GoInt.zero, false⟩ : MyCustomType IntSize.bits32)
      (DriverValue.int64 ⟨2147483648, by decide, by decide⟩)).1.Value ≠
        (DriverValue.int64 ⟨2147483648, by decide, by decide⟩, none) := by
  rw [Scan_bool_eq, Scan_int64_eq, Value_valid_eq, Value_valid_eq]
  refine ⟨rfl, by simp, rfl, ?_⟩
  intro h
  have hval := congrArg (fun r : DriverValue × Option GoError =>
    match r.1 with
    | DriverValue.int64 v => v.val
    | _ => 0) h
  simp only [GoInt.toInt64_val, GoInt64.toInt_val_wrap] at hval
  revert hval
  decide

/-- C8, amended: for every driver value `r` that is nil or a 64-bit integer
representable in `int`, `Value` on the result of scanning `r` returns `r`
itself with a nil error; where `int` is 64 bits wide that covers every 64-bit
integer; a boolean `true` comes back as the 64-bit integer `1`. -/
theorem Value_Scan_inverse {sz : IntSize} (n : MyCustomType sz) :
    (n.Scan DriverValue.nil).1.Value = (DriverValue.nil, none) ∧
    (∀ x : GoInt64, x.fitsInt sz →
      (n.Scan (DriverValue.int64 x)).1.Value = (DriverValue.int64 x, none)) ∧
    (∀ (m : MyCustomType IntSize.bits64) (x : GoInt64),
      (m.Scan (DriverValue.int64 x)).1.Value = (DriverValue.int64 x, none)) ∧
    (∃ one : GoInt64, one.val = 1 ∧
      (n.Scan (DriverValue.bool true)).1.Value = (DriverValue.int64 one, none)) := by
  refine ⟨?_, ?_, ?_, ?_⟩
  · rw [Scan_nil_eq, Value_invalid_eq]
  · intro x hx
    rw [Scan_int64_eq, Value_valid_eq, GoInt64.toInt_toInt64 x hx]
  · intro m x
    rw [Scan_int64_eq, Value_valid_eq, GoInt64.toInt_toInt64 x x.fitsInt_bits64]
  · refine ⟨(GoInt.one : GoInt sz).toInt64, ?_, ?_⟩
    · rw [GoInt.toInt64_val]; rfl
    · rw [Scan_bool_eq, Value_valid_eq]

theorem Value_Scan_inverse_witness :
    (MyCustomType.Scan (⟨GoInt.zero, false⟩ : MyCustomType IntSize.bits32)
      (DriverValue.int64 ⟨-2147483648, by decide, by decide⟩)).1.Value =
        (DriverValue.int64 ⟨-2147483648, by decide, by decide⟩, none) :=
  (Value_Scan_inverse (⟨GoInt.zero, false⟩ : MyCustomType IntSize.bits32)).2.1
    ⟨-2147483648, by decide, by decide⟩ (by decide)

/-- C9: for every prior state of the receiver, `Scan(true)` returns a nil error
and leaves the receiver equal to `MyCustomType{Number: 1, Valid: true}`. -/
theorem Scan_true {sz : IntSize} (n : MyCustomType sz) :
    (n.Scan (DriverValue.bool true)).2 = none ∧
    (n.Scan (DriverValue.bool true)).1.Valid = true ∧
    (n.Scan (DriverValue.bool true)).1.Number.val = 1 := by
  rw [Scan_bool_eq]
  exact ⟨rfl, rfl, rfl⟩

/-- C10, as stated, fails: scanning the string `"x"` into receivers holding
`Number = 0` and `Number = 1` leaves them with different `Number` fields. -/
theorem Scan_depends_on_receiver :
    (MyCustomType.Scan (⟨GoInt.zero, false⟩ : MyCustomType IntSize.bits64)
      (DriverValue.string "x")).1.Number ≠
    (MyCustomType.Scan (⟨GoInt.one, false⟩ : MyCustomType IntSize.bits64)
      (DriverValue.string "x")).1.Number := by
  rw [Scan_string_eq, Scan_string_eq]
  decide

/-- C10, amended: for every driver value `src` and any two receivers, scanning
`src` into each gives the same error result and the same `Valid` field, and,
whenever the scan returns a nil error, identical receivers. -/
theorem Scan_receiver_independent {sz : IntSize} (src : DriverValue)
    (n m : MyCustomType sz) :
    (n.Scan src).2 = (m.Scan src).2 ∧
    (n.Scan src).1.Valid = (m.Scan src).1.Valid ∧
    ((n.Scan src).2 = none → (n.Scan src).1 = (m.Scan src).1) := by
  cases src <;> simp [MyCustomType.Scan]

theorem Scan_receiver_independent_witness :
    (MyCustomType.Scan (⟨GoInt.zero, false⟩ : MyCustomType IntSize.bits64)
      (DriverValue.bool true)).1 =
    (MyCustomType.Scan (⟨GoInt.one, true⟩ : MyCustomType IntSize.bits64)
      (DriverValue.bool true)).1 :=
  (Scan_receiver_independent (DriverValue.bool true)
    (⟨GoInt.zero, false⟩ : MyCustomType IntSize.bits64) ⟨GoInt.one, true⟩).2.2
    (by rw [Scan_bool_eq])

/-- C15: for every prior state of the receiver, `Scan(false)` returns a nil
error and leaves the receiver equal to `MyCustomType{Number: 1, Valid: true}`,
the same outcome as `Scan(true)`; the truth value of a boolean input is
ignored. -/
theorem Scan_false {sz : IntSize} (n : MyCustomType sz) :
    (n.Scan (DriverValue.bool false)).2 = none ∧
    (n.Scan (DriverValue.bool false)).1.Valid = true ∧
    (n.Scan (DriverValue.bool false)).1.Number.val = 1 ∧
    n.Scan (DriverValue.bool false) = n.Scan (DriverValue.bool true) := by
  rw [Scan_bool_eq, Scan_bool_eq]
  exact ⟨rfl, rfl, rfl, rfl⟩

end DatabaseSql

namespace PgxImplementation

/-! ## Evaluation of the repository functions -/

theorem GetStudent_scan_ok {S : Type} [GoZero S] (id : DatabaseSql.GoInt64)
    (student : S) : GetStudent id ⟨student, none⟩ = (student, none) := rfl

theorem GetStudent_scan_err {S : Type} [GoZero S] (id : DatabaseSql.GoInt64)
    (student : S) (err : Err) :
    GetStudent id ⟨student, some err⟩ =
      (GoZero.zero,
        some (if errorsIs err Err.sqlErrNoRows then Err.ErrNotFound else Err.ErrInternal)) := by
  unfold GetStudent
  by_cases h : errorsIs err Err.sqlErrNoRows <;> simp [h]

theorem loop_all_ok {S : Type} (students : List S) (acc : List S) :
    GetStudents.loop acc (students.map fun st => ⟨st, none⟩) = some (acc ++ students) := by
  induction students generalizing acc with
  | nil => simp [GetStudents.loop]
  | cons st rest ih => simp [GetStudents.loop, ih]

theorem loop_scan_err {S : Type} (before : List (ScanResult S)) (student : S)
    (err : Err) (after : List (ScanResult S)) (acc : List S) :
    GetStudents.loop acc (before ++ ⟨student, some err⟩ :: after) = none := by
  induction before generalizing acc with
  | nil => simp [GetStudents.loop]
  | cons scan rest ih =>
    cases hscan : scan.err with
    | none => simp [GetStudents.loop, hscan, ih]
    | some e => simp [GetStudents.loop, hscan]

/-- The no-rows branch of `GetStudent` is taken for `sql.ErrNoRows`, also when
it is wrapped: the function then returns the zero-value student and
`models.ErrNotFound`. -/
theorem GetStudent_sql_no_rows {S : Type} [GoZero S] (id : DatabaseSql.GoInt64)
    (student : S) (msg : String) :
    GetStudent id ⟨student, some Err.sqlErrNoRows⟩ = (GoZero.zero, some Err.ErrNotFound) ∧
    GetStudent id ⟨student, some (Err.wrap msg Err.sqlErrNoRows)⟩ =
      (GoZero.zero, some Err.ErrNotFound) := by
  constructor <;> rw [GetStudent_scan_err] <;> simp [errorsIs]

/-! ## Properties of the repository functions -/

/-- C11, the code at the no-rows input: when the row scan of the pgx pool
reports its no-rows condition `pgx.ErrNoRows`, the test
`errors.Is(err, sql.ErrNoRows)` is false and `GetStudent` returns the
zero-value student together with `models.ErrInternal`, not
`models.ErrNotFound`. -/
theorem GetStudent_pgx_no_rows {S : Type} [GoZero S] (id : DatabaseSql.GoInt64)
    (student : S) :
    errorsIs Err.pgxErrNoRows Err.sqlErrNoRows = false ∧
    GetStudent id ⟨student, some Err.pgxErrNoRows⟩ = (GoZero.zero, some Err.ErrInternal) ∧
    (GetStudent id ⟨student, some Err.pgxErrNoRows⟩).2 ≠ some Err.ErrNotFound := by
  rw [GetStudent_scan_err]
  simp [errorsIs]

/-- C12: for every outcome of the row scan, the error `GetStudent` returns is
nil, `models.ErrNotFound` or `models.ErrInternal`, and it is nil or the
returned student is the zero value, whatever the scan had written. -/
theorem GetStudent_error_closed {S : Type} [GoZero S] (id : DatabaseSql.GoInt64)
    (scan : ScanResult S) :
    ((GetStudent id scan).2 = none ∨ (GetStudent id scan).2 = some Err.ErrNotFound ∨
      (GetStudent id scan).2 = some Err.ErrInternal) ∧
    ((GetStudent id scan).2 = none ∨ (GetStudent id scan).1 = GoZero.zero) := by
  obtain ⟨student, err⟩ := scan
  cases err with
  | none => simp [GetStudent_scan_ok]
  | some e =>
    rw [GetStudent_scan_err]
    by_cases h : errorsIs e Err.sqlErrNoRows <;> simp [h]

/-- C13: `GetStudents` returns a nil slice together with `models.ErrInternal`
when the query fails, when the scan of any row fails (whatever the rows before
and after it), and when `rows.Err()` is non-nil after the iteration; and every
call returns either that pair or a non-nil slice with a nil error. -/
theorem GetStudents_all_or_nothing {S : Type} (ids : List DatabaseSql.GoInt64) :
    (∀ err : Err,
      GetStudents ids (QueryResult.failed err : QueryResult S) = (none, some Err.ErrInternal)) ∧
    (∀ (before : List (ScanResult S)) (student : S) (err : Err)
        (after : List (ScanResult S)) (rowsErr : Option Err),
      GetStudents ids (QueryResult.rows (before ++ ⟨student, some err⟩ :: after) rowsErr) =
        (none, some Err.ErrInternal)) ∧
    (∀ (scans : List (ScanResult S)) (err : Err),
      GetStudents ids (QueryResult.rows scans (some err)) = (none, some Err.ErrInternal)) ∧
    (∀ q : QueryResult S,
      GetStudents ids q = (none, some Err.ErrInternal) ∨
        ∃ students : List S, GetStudents ids q = (some students, none)) := by
  refine ⟨?_, ?_, ?_, ?_⟩
  · intro err
    rfl
  · intro before student err after rowsErr
    simp [GetStudents, loop_scan_err]
  · intro scans err
    simp only [GetStudents]
    cases GetStudents.loop [] scans <;> rfl
  · intro q
    cases q with
    | failed err => exact Or.inl rfl
    | rows scans rowsErr =>
      simp only [GetStudents]
      cases GetStudents.loop [] scans with
      | none => exact Or.inl rfl
      | some students =>
        cases rowsErr with
        | none => exact Or.inr ⟨students, rfl⟩
        | some e => exact Or.inl rfl

/-- C14: when the query succeeds, every row scans without error and
`rows.Err()` is nil, `GetStudents` returns a nil error and a non-nil slice
holding the scanned students, one per row in the order of the rows; with no
rows the slice is empty and non-nil, whatever the ids. -/
theorem GetStudents_success {S : Type} (ids : List DatabaseSql.GoInt64)
    (students : List S) :
    GetStudents ids (QueryResult.rows (students.map fun st => ⟨st, none⟩) none) =
      (some students, none) ∧
    GetStudents ids (QueryResult.rows ([] : List (ScanResult S)) none) = (some [], none) := by
  constructor
  · simp [GetStudents, loop_all_ok]
  · rfl

end PgxImplementation
